/-
Verification of the multi-device execution-context manager
(platform/context.cpp of the ROCclr runtime).

The development shallowly embeds the context code: devices are records
whose fields are the answers the context code observes through the
device interface, machine pointers are naturals with 0 standing for the
null pointer, and every context-level routine is a Lean function
translated clause by clause from the C++ source.  The Windows and Linux
preprocessor variants of the property checker are covered by an explicit
boolean build parameter.
-/
import Mathlib

namespace AmdCtx

/-! ## OpenCL constants used by context.cpp -/

def CL_SUCCESS : Int := 0
def CL_INVALID_VALUE : Int := -30
def CL_INVALID_GL_SHAREGROUP_REFERENCE_KHR : Int := -1000

def CL_CONTEXT_PLATFORM : Int := 0x1084
def CL_CONTEXT_INTEROP_USER_SYNC : Int := 0x1085
def CL_GL_CONTEXT_KHR : Int := 0x2008
def CL_EGL_DISPLAY_KHR : Int := 0x2009
def CL_GLX_DISPLAY_KHR : Int := 0x200A
def CL_WGL_HDC_KHR : Int := 0x200B
def CL_CONTEXT_ADAPTER_D3D9_KHR : Int := 0x2025
def CL_CONTEXT_ADAPTER_D3D9EX_KHR : Int := 0x2026
def CL_CONTEXT_ADAPTER_DXVA_KHR : Int := 0x2027
def CL_CONTEXT_D3D10_DEVICE_KHR : Int := 0x4014
def CL_CONTEXT_D3D11_DEVICE_KHR : Int := 0x401D
def CL_CONTEXT_OFFLINE_DEVICES_AMD : Int := 0x403F

def CL_MEM_SVM_ATOMICS : Nat := 2048
def CL_DEVICE_SVM_ATOMICS : Nat := 8

/-- sizeof the (intptr_t, pointer) property pair on an LP64/LLP64 build. -/
def sizeofElement : Nat := 16

/-- sizeof(intptr_t): the one-word zero terminator of a property list. -/
def sizeofIntptr : Nat := 8

/-! ## Devices

A device is everything the context code can observe through the device
interface: an identity (standing for the C++ object address), the
capability answers, and an allocation oracle for svmAlloc calls. -/

structure Device where
  id : Nat := 0
  svmSupport : Bool := false
  /-- the answer of isFineGrainedSystem when queried with the atomics flag true -/
  fineGrainedSystem : Bool := false
  /-- the svmCapabilities_ bit field of the device info descriptor -/
  svmCapabilities : Nat := 0
  customHostAllocator : Bool := false
  maxOnDeviceQueues : Nat := 0
  /-- result of Device::bindExternalDevice for the fixed arguments of one
  Context::create call -/
  bindExternalDeviceOk : Bool := true
deriving DecidableEq

instance : Inhabited Device := ⟨{}⟩

/-- The behaviour of the virtual method Device::svmAlloc: an oracle
giving, per device, the returned pointer for the given size, alignment,
flags and previously established pointer (none standing for nullptr). -/
def AllocOracle := Device → Nat → Nat → Nat → Option Nat → Option Nat

/-! ## Constructor: the SVM device subset and its ordering

Context::Context pushes every svmSupport device onto svmAllocDevice_ in
input order, then, when more than one is present, scans for the first
device for which `isFirstDeviceFGSEnabled && !dev->isFineGrainedSystem(true)`
holds, swaps it with the front and breaks. -/

def svmDeviceList (devices : List Device) : List Device :=
  devices.filter (fun d => d.svmSupport)

/-- Index of the first device satisfying the swap condition of the
constructor loop (the loop body guarded by isFirstDeviceFGSEnabled). -/
def findSwapIndex (firstFGS : Bool) : List Device → Option Nat
  | [] => none
  | d :: rest =>
    if firstFGS && !d.fineGrainedSystem then some 0
    else (findSwapIndex firstFGS rest).map (· + 1)

/-- std::swap of the front entry with the entry at index j. -/
def swapFrontWith (l : List Device) (j : Nat) : List Device :=
  match l.head?, l[j]? with
  | some d0, some dj => (l.set 0 dj).set j d0
  | _, _ => l

/-- The reordering Context::Context applies to svmAllocDevice_. -/
def orderSvmDevices (svm : List Device) : List Device :=
  if 1 < svm.length then
    match svm.head? with
    | some d0 =>
      match findSwapIndex d0.fineGrainedSystem svm with
      | some j => swapFrontWith svm j
      | none => svm
    | none => svm
  else svm

/-- svmAllocDevice_ as established by Context::Context from the input
device list. -/
def contextSvmDevices (devices : List Device) : List Device :=
  orderSvmDevices (svmDeviceList devices)

/-! ## Context::svmAlloc

The function returns the allocated pointer (none = nullptr) together
with the list of device ids on which Device::svmAlloc was invoked, in
invocation order. -/

def svmAtomicsRequested (flags : Nat) : Bool :=
  flags &&& CL_MEM_SVM_ATOMICS != 0

def devSupportsSvmAtomics (d : Device) : Bool :=
  d.svmCapabilities &&& CL_DEVICE_SVM_ATOMICS != 0

/-- The loop over svmAllocDevice_ inside Context::svmAlloc: skip curDev,
skip devices that cannot honor requested platform atomics, otherwise ask
the device to allocate or mirror; a null answer aborts the call. -/
def svmAllocLoop (oracle : AllocOracle) (size align flags : Nat) (curId : Option Nat) :
    List Device → Option Nat → Option Nat × List Nat
  | [], ptr => (ptr, [])
  | dev :: rest, ptr =>
    if curId = some dev.id then
      svmAllocLoop oracle size align flags curId rest ptr
    else if svmAtomicsRequested flags && !devSupportsSvmAtomics dev then
      svmAllocLoop oracle size align flags curId rest ptr
    else
      match oracle dev size align flags ptr with
      | none => (none, [dev.id])
      | some p =>
        let r := svmAllocLoop oracle size align flags curId rest (some p)
        (r.1, dev.id :: r.2)

/-- Context::svmAlloc over the ordered SVM device subset.  curDev = none
stands for a null originDevice pointer. -/
def svmAlloc (oracle : AllocOracle) (svmDevs : List Device) (size align flags : Nat)
    (curDev : Option Device) : Option Nat × List Nat :=
  if svmDevs.length < 1 then (none, [])
  else
    match curDev with
    | none => svmAllocLoop oracle size align flags none svmDevs none
    | some cd =>
      if !svmAtomicsRequested flags || devSupportsSvmAtomics cd then
        match oracle cd size align flags none with
        | none => (none, [cd.id])
        | some p =>
          let r := svmAllocLoop oracle size align flags (some cd.id) svmDevs (some p)
          (r.1, cd.id :: r.2)
      else
        svmAllocLoop oracle size align flags (some cd.id) svmDevs none

/-! ## The normalized property descriptor (Context::Info) -/

structure Info where
  interopUserSync : Bool := false
  glFlag : Bool := false
  eglFlag : Bool := false
  d3d10Flag : Bool := false
  d3d11Flag : Bool := false
  d3d9Flag : Bool := false
  d3d9exFlag : Bool := false
  d3d9vaFlag : Bool := false
  offlineFlag : Bool := false
  hDevGL : Nat := 0
  hDevD3D10 : Nat := 0
  hDevD3D11 : Nat := 0
  hDevD3D9 : Nat := 0
  hDevD3D9EX : Nat := 0
  hDevD3D9VA : Nat := 0
  hCtx : Nat := 0
  propertiesSize : Nat := 0
deriving DecidableEq

/-- The memset-zeroed Info structure. -/
def initInfo : Info := {}

/-! ## Context::checkProperties

One step of the property-processing while loop.  The win32 parameter
selects the preprocessor build (true: _WIN32, false: linux).  A property
value is a machine word; 0 stands for the null pointer.  The switch
cases for CL_EGL_DISPLAY_KHR, CL_WGL_HDC_KHR / CL_GLX_DISPLAY_KHR and
CL_GL_CONTEXT_KHR fall through into one another exactly as in the
source. -/

def checkProperty (win32 : Bool) (amdPlatform : Nat) (i : Info)
    (name : Int) (value : Nat) : Except Int Info :=
  if name = CL_CONTEXT_INTEROP_USER_SYNC then
    .ok (if value = 1 then { i with interopUserSync := true } else i)
  else if win32 = true ∧ name = CL_CONTEXT_D3D10_DEVICE_KHR then
    if value = 0 then .error CL_INVALID_VALUE
    else .ok { i with hDevD3D10 := value, d3d10Flag := true }
  else if win32 = true ∧ name = CL_CONTEXT_D3D11_DEVICE_KHR then
    if value = 0 then .error CL_INVALID_VALUE
    else .ok { i with hDevD3D11 := value, d3d11Flag := true }
  else if win32 = true ∧ name = CL_CONTEXT_ADAPTER_D3D9_KHR then
    if value = 0 then .error CL_INVALID_VALUE
    else .ok { i with hDevD3D9 := value, d3d9Flag := true }
  else if win32 = true ∧ name = CL_CONTEXT_ADAPTER_D3D9EX_KHR then
    if value = 0 then .error CL_INVALID_VALUE
    else .ok { i with hDevD3D9EX := value, d3d9exFlag := true }
  else if win32 = true ∧ name = CL_CONTEXT_ADAPTER_DXVA_KHR then
    if value = 0 then .error CL_INVALID_VALUE
    else .ok { i with hDevD3D9VA := value, d3d9vaFlag := true }
  else if name = CL_EGL_DISPLAY_KHR ∨ (win32 = true ∧ name = CL_WGL_HDC_KHR) ∨
          (win32 = false ∧ name = CL_GLX_DISPLAY_KHR) ∨ name = CL_GL_CONTEXT_KHR then
    let i1 := if name = CL_EGL_DISPLAY_KHR then { i with eglFlag := true } else i
    let i2 := if name ≠ CL_GL_CONTEXT_KHR then { i1 with hDevGL := value } else i1
    if value = 0 then .error CL_INVALID_GL_SHAREGROUP_REFERENCE_KHR
    else
      let i3 := if name = CL_GL_CONTEXT_KHR then { i2 with hCtx := value } else i2
      .ok { i3 with glFlag := true }
  else if name = CL_CONTEXT_PLATFORM then
    if value = 0 ∨ value = amdPlatform then .ok i else .error CL_INVALID_VALUE
  else if name = CL_CONTEXT_OFFLINE_DEVICES_AMD then
    if value = 1 then .ok { i with offlineFlag := true } else .error CL_INVALID_VALUE
  else .error CL_INVALID_VALUE

/-- The while loop of Context::checkProperties: process pairs until a
zero tag (or the end of the modelled buffer), counting processed pairs;
on success record propertiesSize_ = count * sizeof(Element) +
sizeof(intptr_t). -/
def checkPropertiesAux (win32 : Bool) (amdPlatform : Nat) :
    Info → Nat → List (Int × Nat) → Except Int Info
  | i, count, [] => .ok { i with propertiesSize := count * sizeofElement + sizeofIntptr }
  | i, count, (name, value) :: rest =>
    if name = 0 then
      .ok { i with propertiesSize := count * sizeofElement + sizeofIntptr }
    else
      match checkProperty win32 amdPlatform i name value with
      | .error e => .error e
      | .ok i2 => checkPropertiesAux win32 amdPlatform i2 (count + 1) rest

/-- Context::checkProperties on a non-null property buffer, given as the
list of (tag, value) pairs it holds. -/
def checkProperties (win32 : Bool) (amdPlatform : Nat)
    (props : List (Int × Nat)) : Except Int Info :=
  checkPropertiesAux win32 amdPlatform initInfo 0 props

/-! ## Context::create

Only the device-binding loop, the error classification and the GL
environment branch are modelled; the two oracles stand for the result of
Os::loadLibrary and of GLFunctions::init. -/

def interopFlagsSet (i : Info) : Bool :=
  i.d3d10Flag || i.d3d11Flag || i.glFlag || i.d3d9Flag || i.d3d9exFlag || i.d3d9vaFlag

/-- The device loop of Context::create: bindExternalDevice is attempted
on every device; any failure turns the running result into
CL_INVALID_VALUE.  Returns the result together with the ids attempted,
in order. -/
def bindLoop : List Device → Int × List Nat
  | [] => (CL_SUCCESS, [])
  | d :: rest =>
    let r := bindLoop rest
    (if d.bindExternalDeviceOk then r.1 else CL_INVALID_VALUE, d.id :: r.2)

/-- Context::create: returns the result code and the ids of the devices
on which bindExternalDevice was attempted. -/
def createCtx (i : Info) (devices : List Device)
    (libLoaded glInitOk : Bool) : Int × List Nat :=
  let step := if interopFlagsSet i then bindLoop devices else (CL_SUCCESS, [])
  let result :=
    if step.1 ≠ CL_SUCCESS then
      if i.glFlag then CL_INVALID_GL_SHAREGROUP_REFERENCE_KHR else step.1
    else
      if i.glFlag && libLoaded && !glInitOk then CL_INVALID_GL_SHAREGROUP_REFERENCE_KHR
      else step.1
  (result, step.2)

/-! ## The device-queue registry -/

structure DeviceQueueInfo where
  deviceQueueCnt : Nat := 0
  defDeviceQueue : Option Nat := none
deriving DecidableEq

/-- The deviceQueues_ map, keyed by device identity; absent entries read
as the value-initialized DeviceQueueInfo. -/
def Registry := Nat → DeviceQueueInfo

def emptyRegistry : Registry := fun _ => {}

/-- Context::isDevQueuePossible. -/
def isDevQueuePossible (r : Registry) (d : Device) : Bool :=
  if (r d.id).deviceQueueCnt < d.maxOnDeviceQueues then true else false

/-- Context::addDeviceQueue: increments the count unconditionally and
records the default queue when asked to. -/
def addDeviceQueue (r : Registry) (d : Device) (queue : Nat)
    (defDevQueue : Bool) : Registry :=
  fun k =>
    if k = d.id then
      { deviceQueueCnt := (r d.id).deviceQueueCnt + 1,
        defDeviceQueue := if defDevQueue then some queue else (r d.id).defDeviceQueue }
    else r k

/-- Context::removeDeviceQueue: the assert on a zero count is modelled
as none (the aborting outcome); otherwise the count is decremented and a
matching default queue is cleared. -/
def removeDeviceQueue (r : Registry) (d : Device) (queue : Nat) :
    Option Registry :=
  if (r d.id).deviceQueueCnt = 0 then none
  else
    some fun k =>
      if k = d.id then
        { deviceQueueCnt := (r d.id).deviceQueueCnt - 1,
          defDeviceQueue := if (r d.id).defDeviceQueue = some queue then none
                            else (r d.id).defDeviceQueue }
      else r k

/-- Registry states reachable through the registry operations from the
empty map (a remove step exists only when the assert does not fire). -/
inductive Reachable : Registry → Prop
  | empty : Reachable emptyRegistry
  | add (r : Registry) (d : Device) (queue : Nat) (defq : Bool) :
      Reachable r → Reachable (addDeviceQueue r d queue defq)
  | remove (r r2 : Registry) (d : Device) (queue : Nat) :
      Reachable r → removeDeviceQueue r d queue = some r2 → Reachable r2

/-- Whether checkProperty accepts the pair (recognized tag, valid
value); acceptance does not depend on the incoming Info state, which the
lemma checkProperty_isOk_eq below records. -/
def checkPropertyOk (win32 : Bool) (amdPlatform : Nat) (name : Int) (value : Nat) : Bool :=
  (checkProperty win32 amdPlatform initInfo name value).isOk

/-! ## Concrete fixtures used by witnesses and counterexamples -/

def devFGS1 : Device := { id := 1, svmSupport := true, fineGrainedSystem := true }
def devFGS2 : Device := { id := 2, svmSupport := true, fineGrainedSystem := true }
def devCoarse : Device := { id := 3, svmSupport := true, fineGrainedSystem := false }
def devNoSvm : Device := { id := 4 }

/-- An origin device, together with an allocation oracle that always
succeeds on every device. -/
def cdevC2 : Device := { id := 7 }

def alwaysOracle : AllocOracle := fun _ _ _ _ _ => some 100

def qdev : Device := { id := 0, maxOnDeviceQueues := 1 }

/-- A registry state reached by registering two queues on a device whose
maximum is one (addDeviceQueue performs no capacity check). -/
def overRegistry : Registry :=
  addDeviceQueue (addDeviceQueue emptyRegistry qdev 10 false) qdev 11 false

/-! ## Helper lemmas -/

theorem bindLoop_trace (devices : List Device) :
    (bindLoop devices).2 = devices.map (fun d => d.id) := by
  induction devices with
  | nil => rfl
  | cons d rest ih => simp [bindLoop, ih]

theorem bindLoop_fail (devices : List Device) (d : Device)
    (hd : d ∈ devices) (hf : d.bindExternalDeviceOk = false) :
    (bindLoop devices).1 = CL_INVALID_VALUE := by
  induction devices with
  | nil => cases hd
  | cons e rest ih =>
    rcases List.mem_cons.mp hd with h | h
    · subst h; simp [bindLoop, hf]
    · simp only [bindLoop]
      split
      · exact ih h
      · rfl

theorem findSwapIndex_some_getElem (b : Bool) (l : List Device) (j : Nat)
    (h : findSwapIndex b l = some j) :
    ∃ dj, l[j]? = some dj ∧ (b && !dj.fineGrainedSystem) = true := by
  induction l generalizing j with
  | nil => simp [findSwapIndex] at h
  | cons d rest ih =>
    by_cases hp : (b && !d.fineGrainedSystem) = true
    · simp [findSwapIndex, hp] at h
      subst h
      exact ⟨d, by simp, hp⟩
    · simp [findSwapIndex, hp] at h
      rcases h with ⟨j0, hj0, hj⟩
      rcases ih j0 hj0 with ⟨dj, hget, hpred⟩
      subst hj
      exact ⟨dj, by simpa using hget, hpred⟩

theorem findSwapIndex_some_min (b : Bool) (l : List Device) (j : Nat)
    (h : findSwapIndex b l = some j) :
    ∀ k dk, k < j → l[k]? = some dk → (b && !dk.fineGrainedSystem) = false := by
  induction l generalizing j with
  | nil => simp [findSwapIndex] at h
  | cons d rest ih =>
    by_cases hp : (b && !d.fineGrainedSystem) = true
    · simp [findSwapIndex, hp] at h
      subst h
      intro k dk hk
      omega
    · simp [findSwapIndex, hp] at h
      rcases h with ⟨j0, hj0, hj⟩
      subst hj
      intro k dk hk hget
      match k with
      | 0 =>
        simp at hget
        subst hget
        simpa using hp
      | k + 1 =>
        simp at hget
        exact ih j0 hj0 k dk (by omega) hget

theorem findSwapIndex_of_exists (b : Bool) (l : List Device)
    (h : ∃ d ∈ l, (b && !d.fineGrainedSystem) = true) :
    ∃ j, findSwapIndex b l = some j := by
  induction l with
  | nil => simp at h
  | cons d rest ih =>
    by_cases hp : (b && !d.fineGrainedSystem) = true
    · exact ⟨0, by simp [findSwapIndex, hp]⟩
    · rcases h with ⟨e, he, hpe⟩
      rcases List.mem_cons.mp he with h1 | h1
      · subst h1; exact absurd hpe hp
      · rcases ih ⟨e, h1, hpe⟩ with ⟨j, hj⟩
        exact ⟨j + 1, by simp [findSwapIndex, hp, hj]⟩

theorem findSwapIndex_eq_of (b : Bool) (l : List Device) (j : Nat) (dj : Device)
    (hget : l[j]? = some dj) (hp : (b && !dj.fineGrainedSystem) = true)
    (hmin : ∀ k dk, k < j → l[k]? = some dk → (b && !dk.fineGrainedSystem) = false) :
    findSwapIndex b l = some j := by
  induction l generalizing j with
  | nil => simp at hget
  | cons d rest ih =>
    match j with
    | 0 =>
      simp at hget
      subst hget
      simp [findSwapIndex, hp]
    | j + 1 =>
      have hd : (b && !d.fineGrainedSystem) = false := hmin 0 d (by omega) (by simp)
      simp at hget
      have hrec : findSwapIndex b rest = some j := by
        refine ih j hget ?_
        intro k dk hk hgetk
        exact hmin (k + 1) dk (by omega) (by simpa using hgetk)
      simp [findSwapIndex, hd, hrec]

theorem swapFrontWith_expand (l : List Device) (j : Nat) (d0 dj : Device)
    (h0 : l.head? = some d0) (hj : l[j]? = some dj) :
    swapFrontWith l j = (l.set 0 dj).set j d0 := by
  unfold swapFrontWith
  rw [h0, hj]

theorem swapFrontWith_head (l : List Device) (j : Nat) (d0 dj : Device)
    (h0 : l.head? = some d0) (hj : l[j]? = some dj) (hne : j ≠ 0) :
    (swapFrontWith l j).head? = some dj := by
  have h0len : 0 < l.length := by
    have := (List.getElem?_eq_some.mp ((List.head?_eq_getElem? l) ▸ h0)).1
    omega
  rw [swapFrontWith_expand l j d0 dj h0 hj, List.head?_eq_getElem?,
    List.getElem?_set_ne hne, List.getElem?_set_eq_of_lt _ h0len]

theorem swapFrontWith_at (l : List Device) (j : Nat) (d0 dj : Device)
    (h0 : l.head? = some d0) (hj : l[j]? = some dj) :
    (swapFrontWith l j)[j]? = some d0 := by
  have hjlen : j < l.length := (List.getElem?_eq_some.mp hj).1
  rw [swapFrontWith_expand l j d0 dj h0 hj,
    List.getElem?_set_eq_of_lt _ (by rw [List.length_set]; exact hjlen)]

theorem swapFrontWith_other (l : List Device) (j : Nat) (d0 dj : Device)
    (h0 : l.head? = some d0) (hj : l[j]? = some dj)
    (k : Nat) (hk0 : k ≠ 0) (hkj : k ≠ j) :
    (swapFrontWith l j)[k]? = l[k]? := by
  rw [swapFrontWith_expand l j d0 dj h0 hj,
    List.getElem?_set_ne (fun h => hkj h.symm),
    List.getElem?_set_ne (fun h => hk0 h.symm)]

set_option maxHeartbeats 2000000 in
theorem checkProperty_isOk_eq (w : Bool) (a : Nat) (i : Info) (n : Int) (v : Nat) :
    (checkProperty w a i n v).isOk = checkPropertyOk w a n v := by
  unfold checkPropertyOk checkProperty
  by_cases h1 : n = CL_CONTEXT_INTEROP_USER_SYNC
  · subst h1; simp [Except.isOk, Except.toBool]
  rw [if_neg h1, if_neg h1]
  by_cases h2 : w = true ∧ n = CL_CONTEXT_D3D10_DEVICE_KHR
  · rw [if_pos h2, if_pos h2]
    by_cases hv : v = 0 <;> simp [hv, Except.isOk, Except.toBool]
  rw [if_neg h2, if_neg h2]
  by_cases h3 : w = true ∧ n = CL_CONTEXT_D3D11_DEVICE_KHR
  · rw [if_pos h3, if_pos h3]
    by_cases hv : v = 0 <;> simp [hv, Except.isOk, Except.toBool]
  rw [if_neg h3, if_neg h3]
  by_cases h4 : w = true ∧ n = CL_CONTEXT_ADAPTER_D3D9_KHR
  · rw [if_pos h4, if_pos h4]
    by_cases hv : v = 0 <;> simp [hv, Except.isOk, Except.toBool]
  rw [if_neg h4, if_neg h4]
  by_cases h5 : w = true ∧ n = CL_CONTEXT_ADAPTER_D3D9EX_KHR
  · rw [if_pos h5, if_pos h5]
    by_cases hv : v = 0 <;> simp [hv, Except.isOk, Except.toBool]
  rw [if_neg h5, if_neg h5]
  by_cases h6 : w = true ∧ n = CL_CONTEXT_ADAPTER_DXVA_KHR
  · rw [if_pos h6, if_pos h6]
    by_cases hv : v = 0 <;> simp [hv, Except.isOk, Except.toBool]
  rw [if_neg h6, if_neg h6]
  by_cases h7 : n = CL_EGL_DISPLAY_KHR ∨ (w = true ∧ n = CL_WGL_HDC_KHR) ∨
      (w = false ∧ n = CL_GLX_DISPLAY_KHR) ∨ n = CL_GL_CONTEXT_KHR
  · rw [if_pos h7, if_pos h7]
    dsimp only
    by_cases hv : v = 0 <;> simp [hv, Except.isOk, Except.toBool]
  rw [if_neg h7, if_neg h7]
  by_cases h8 : n = CL_CONTEXT_PLATFORM
  · subst h8
    simp only [if_pos rfl]
    by_cases hv : v = 0 ∨ v = a <;> simp [hv, Except.isOk, Except.toBool]
  rw [if_neg h8, if_neg h8]
  by_cases h9 : n = CL_CONTEXT_OFFLINE_DEVICES_AMD
  · subst h9
    simp only [if_pos rfl]
    by_cases hv : v = 1 <;> simp [hv, Except.isOk, Except.toBool]
  rw [if_neg h9, if_neg h9]

theorem checkProperty_ok_exists (w : Bool) (a : Nat) (i : Info) (n : Int) (v : Nat)
    (h : checkPropertyOk w a n v = true) :
    ∃ i2, checkProperty w a i n v = Except.ok i2 := by
  have := checkProperty_isOk_eq w a i n v
  rw [h] at this
  cases hc : checkProperty w a i n v with
  | ok i2 => exact ⟨i2, rfl⟩
  | error e => rw [hc] at this; simp [Except.isOk, Except.toBool] at this

theorem checkPropertyOk_zero (w : Bool) (a : Nat) (v : Nat) :
    checkPropertyOk w a 0 v = false := by
  unfold checkPropertyOk checkProperty
  norm_num [CL_CONTEXT_INTEROP_USER_SYNC, CL_CONTEXT_D3D10_DEVICE_KHR,
    CL_CONTEXT_D3D11_DEVICE_KHR, CL_CONTEXT_ADAPTER_D3D9_KHR,
    CL_CONTEXT_ADAPTER_D3D9EX_KHR, CL_CONTEXT_ADAPTER_DXVA_KHR,
    CL_EGL_DISPLAY_KHR, CL_WGL_HDC_KHR, CL_GLX_DISPLAY_KHR, CL_GL_CONTEXT_KHR,
    CL_CONTEXT_PLATFORM, CL_CONTEXT_OFFLINE_DEVICES_AMD, Except.isOk, Except.toBool]

theorem checkPropertiesAux_ok (w : Bool) (a : Nat) (props : List (Int × Nat))
    (hgood : ∀ p ∈ props, checkPropertyOk w a p.1 p.2 = true) :
    ∀ (i : Info) (count : Nat), ∃ i2,
      checkPropertiesAux w a i count props = Except.ok i2 ∧
      i2.propertiesSize = (count + props.length) * sizeofElement + sizeofIntptr := by
  induction props with
  | nil =>
    intro i count
    exact ⟨_, rfl, by simp⟩
  | cons p rest ih =>
    intro i count
    obtain ⟨n, v⟩ := p
    have hg0 : checkPropertyOk w a n v = true := hgood (n, v) (List.mem_cons_self _ _)
    have hn : ¬ n = 0 := by
      intro h
      rw [h, checkPropertyOk_zero] at hg0
      cases hg0
    rcases checkProperty_ok_exists w a i n v hg0 with ⟨i2, hok⟩
    rcases ih (fun q hq => hgood q (List.mem_cons_of_mem _ hq)) i2 (count + 1) with
      ⟨i3, hrun, hsize⟩
    refine ⟨i3, ?_, ?_⟩
    · simp only [checkPropertiesAux, if_neg hn, hok]
      exact hrun
    · rw [hsize]
      ring_nf
      simp [List.length_cons]
      ring

theorem orderSvmDevices_swap (svm : List Device) (d0 : Device) (j : Nat)
    (h1 : 1 < svm.length) (hhead : svm.head? = some d0)
    (hfind : findSwapIndex d0.fineGrainedSystem svm = some j) :
    orderSvmDevices svm = swapFrontWith svm j := by
  unfold orderSvmDevices
  rw [if_pos h1, hhead]
  dsimp only
  rw [hfind]

/-! ## Claim theorems -/

/-- Claim C1: for every device list whose SVM-capable subset has at
least 2 members, if the first SVM-capable device (by input order)
reports fine-grained-system capability (queried with the atomics flag
true) and at least one other SVM-capable device does not, then after
construction the first entry of the SVM device subset of the context is
a fine-grained-incapable device. -/
theorem claim1_first_svm_entry_incapable (devices : List Device) (d0 : Device)
    (hhead : (svmDeviceList devices).head? = some d0)
    (hlen : 2 ≤ (svmDeviceList devices).length)
    (hfgs : d0.fineGrainedSystem = true)
    (hother : ∃ d ∈ svmDeviceList devices, d.fineGrainedSystem = false) :
    ∃ e, (contextSvmDevices devices).head? = some e ∧ e.fineGrainedSystem = false := by
  have hex : ∃ d ∈ svmDeviceList devices,
      (d0.fineGrainedSystem && !d.fineGrainedSystem) = true := by
    rcases hother with ⟨d, hd, hdf⟩
    exact ⟨d, hd, by rw [hfgs, hdf]; rfl⟩
  rcases findSwapIndex_of_exists _ _ hex with ⟨j, hj⟩
  rcases findSwapIndex_some_getElem _ _ j hj with ⟨dj, hget, hpred⟩
  have hdjf : dj.fineGrainedSystem = false := by
    rw [hfgs] at hpred
    simpa using hpred
  have hjne : j ≠ 0 := by
    intro h0
    subst h0
    rw [List.head?_eq_getElem?] at hhead
    rw [hhead] at hget
    have hd0 : d0 = dj := Option.some.inj hget
    rw [← hd0, hfgs] at hdjf
    cases hdjf
  rw [contextSvmDevices, orderSvmDevices_swap _ d0 j (by omega) hhead hj]
  exact ⟨dj, swapFrontWith_head _ j d0 dj hhead hget hjne, hdjf⟩

/-- Witness for claim C1: three SVM devices with the first two
fine-grained capable and the third not; the reordered subset starts with
an incapable device. -/
theorem claim1_witness :
    ∃ e, (contextSvmDevices [devFGS1, devFGS2, devCoarse, devNoSvm]).head? = some e ∧
      e.fineGrainedSystem = false :=
  claim1_first_svm_entry_incapable [devFGS1, devFGS2, devCoarse, devNoSvm] devFGS1
    (by decide) (by decide) (by decide) ⟨devCoarse, by decide, by decide⟩

/-- Claim C9: whenever the construction-time SVM ordering swap fires
(the first SVM device is fine-grained-system capable and a later one at
index j is the earliest that is not), exactly one exchange is performed:
the front entry trades places with the entry at j, and every other SVM
device keeps its input-order position. -/
theorem claim9_swap_transposition (devices : List Device) (d0 dj : Device) (j : Nat)
    (hhead : (svmDeviceList devices).head? = some d0)
    (hlen : 2 ≤ (svmDeviceList devices).length)
    (hfgs : d0.fineGrainedSystem = true)
    (hj : (svmDeviceList devices)[j]? = some dj)
    (hj_incap : dj.fineGrainedSystem = false)
    (hmin : ∀ k dk, k < j → (svmDeviceList devices)[k]? = some dk →
      dk.fineGrainedSystem = true) :
    (contextSvmDevices devices).head? = some dj ∧
    (contextSvmDevices devices)[j]? = some d0 ∧
    ∀ k, k ≠ 0 → k ≠ j →
      (contextSvmDevices devices)[k]? = (svmDeviceList devices)[k]? := by
  have hfind : findSwapIndex d0.fineGrainedSystem (svmDeviceList devices) = some j := by
    refine findSwapIndex_eq_of _ _ j dj hj (by rw [hfgs, hj_incap]; rfl) ?_
    intro k dk hk hgetk
    rw [hmin k dk hk hgetk, hfgs]
    rfl
  have hjne : j ≠ 0 := by
    intro h0
    subst h0
    rw [List.head?_eq_getElem?] at hhead
    rw [hhead] at hj
    have hd0 : d0 = dj := Option.some.inj hj
    rw [← hd0, hfgs] at hj_incap
    cases hj_incap
  rw [contextSvmDevices, orderSvmDevices_swap _ d0 j (by omega) hhead hfind]
  exact ⟨swapFrontWith_head _ j d0 dj hhead hj hjne,
    swapFrontWith_at _ j d0 dj hhead hj,
    fun k hk0 hkj => swapFrontWith_other _ j d0 dj hhead hj k hk0 hkj⟩

/-- Witness for claim C9: with SVM devices FGS1, FGS2, Coarse (earliest
incapable at index 2), the result places Coarse first, FGS1 at index 2,
and keeps FGS2 at index 1. -/
theorem claim9_witness :
    (contextSvmDevices [devFGS1, devFGS2, devCoarse, devNoSvm]).head? = some devCoarse ∧
    (contextSvmDevices [devFGS1, devFGS2, devCoarse, devNoSvm])[2]? = some devFGS1 ∧
    (contextSvmDevices [devFGS1, devFGS2, devCoarse, devNoSvm])[1]? =
      (svmDeviceList [devFGS1, devFGS2, devCoarse, devNoSvm])[1]? := by
  have h := claim9_swap_transposition [devFGS1, devFGS2, devCoarse, devNoSvm]
    devFGS1 devCoarse 2 (by decide) (by decide) (by decide) (by decide) (by decide)
    (by
      intro k dk hk hget
      interval_cases k <;>
        simp_all [svmDeviceList, devFGS1, devFGS2, devCoarse, devNoSvm] <;>
        (cases hget; rfl))
  exact ⟨h.1, h.2.1, h.2.2 1 (by decide) (by decide)⟩

/-- Counterexample to claim C2 as stated: a call to svmAlloc with a
non-null originDevice that does not request platform atomics it cannot
honor, on a context whose SVM subset is empty, returns null with an
empty invocation trace, so the origin device is never asked to
allocate. -/
theorem claim2_counterexample :
    svmAtomicsRequested 0 = false ∧
    svmAlloc alwaysOracle [] 4096 256 0 (some cdevC2) = (none, []) ∧
    cdevC2.id ∉ (svmAlloc alwaysOracle [] 4096 256 0 (some cdevC2)).2 := by
  refine ⟨rfl, rfl, ?_⟩
  intro h
  simp [svmAlloc] at h

/-- Claim C2 (amended): for every call to svmAlloc with a non-null
originDevice (curDev) on a context whose SVM-capable subset is
non-empty, if curDev does not request platform atomics it cannot honor,
curDev is asked to allocate before any device of the ordered SVM subset,
and if curDev returns null the whole call returns null without invoking
svmAlloc on any other device. -/
theorem claim2_curdev_first (oracle : AllocOracle) (svmDevs : List Device)
    (size align flags : Nat) (cd : Device)
    (hne : svmDevs ≠ [])
    (hat : (!svmAtomicsRequested flags || devSupportsSvmAtomics cd) = true) :
    (svmAlloc oracle svmDevs size align flags (some cd)).2.head? = some cd.id ∧
    (oracle cd size align flags none = none →
      svmAlloc oracle svmDevs size align flags (some cd) = (none, [cd.id])) := by
  have hlen : ¬ svmDevs.length < 1 := by
    cases svmDevs with
    | nil => exact absurd rfl hne
    | cons d rest => simp
  unfold svmAlloc
  rw [if_neg hlen]
  dsimp only
  rw [if_pos hat]
  generalize oracle cd size align flags none = x
  cases x with
  | none => exact ⟨rfl, fun _ => rfl⟩
  | some p => exact ⟨rfl, fun h => nomatch h⟩

/-- Witness for claim C2 (amended): a one-device subset with an oracle
that fails on every device; the origin device is asked first and its
null answer aborts the call. -/
theorem claim2_witness :
    (svmAlloc (fun _ _ _ _ _ => none) [devFGS1] 4096 256 0 (some cdevC2)).2.head? =
      some cdevC2.id ∧
    ((none : Option Nat) = none →
      svmAlloc (fun _ _ _ _ _ => none) [devFGS1] 4096 256 0 (some cdevC2) =
        (none, [cdevC2.id])) :=
  claim2_curdev_first (fun _ _ _ _ _ => none) [devFGS1] 4096 256 0 cdevC2
    (by simp) (by decide)

/-- Claim C3: for every size, alignment, flags and originDevice argument
(including a non-null originDevice), svmAlloc on a context whose
SVM-capable device subset is empty returns null without invoking
svmAlloc on any device. -/
theorem claim3_empty_subset_null (oracle : AllocOracle) (size align flags : Nat)
    (curDev : Option Device) :
    svmAlloc oracle [] size align flags curDev = (none, []) := rfl

/-- Claim C4: when create runs with an external-device interop flag set
and at least one device fails to bind, bindExternalDevice is attempted
on every device of the context in input order, the call fails, and the
reported error is CL_INVALID_GL_SHAREGROUP_REFERENCE_KHR whenever the GL
device kind was among those requested. -/
theorem claim4_bind_all_classify (i : Info) (devices : List Device)
    (libLoaded glInitOk : Bool)
    (hflags : interopFlagsSet i = true)
    (hfail : ∃ d ∈ devices, d.bindExternalDeviceOk = false) :
    (createCtx i devices libLoaded glInitOk).2 = devices.map (fun d => d.id) ∧
    (createCtx i devices libLoaded glInitOk).1 ≠ CL_SUCCESS ∧
    (i.glFlag = true →
      (createCtx i devices libLoaded glInitOk).1 =
        CL_INVALID_GL_SHAREGROUP_REFERENCE_KHR) := by
  rcases hfail with ⟨d, hd, hdf⟩
  have hb : (bindLoop devices).1 = CL_INVALID_VALUE := bindLoop_fail devices d hd hdf
  have htr := bindLoop_trace devices
  unfold createCtx
  by_cases hgl : i.glFlag = true <;>
    simp_all [CL_SUCCESS, CL_INVALID_VALUE, CL_INVALID_GL_SHAREGROUP_REFERENCE_KHR]

/-- Witness for claim C4: GL and D3D10 interop both requested, the
middle of three devices fails to bind; all three are attempted and the
GL error is reported. -/
theorem claim4_witness :
    (createCtx { glFlag := true, d3d10Flag := true }
      [{ id := 1 }, { id := 2, bindExternalDeviceOk := false }, { id := 3 }] true true).2 =
      (([{ id := 1 }, { id := 2, bindExternalDeviceOk := false }, { id := 3 }] :
        List Device).map (fun d => d.id)) ∧
    (createCtx { glFlag := true, d3d10Flag := true }
      [{ id := 1 }, { id := 2, bindExternalDeviceOk := false }, { id := 3 }] true true).1 ≠
      CL_SUCCESS ∧
    (Info.glFlag { glFlag := true, d3d10Flag := true } = true →
      (createCtx { glFlag := true, d3d10Flag := true }
        [{ id := 1 }, { id := 2, bindExternalDeviceOk := false }, { id := 3 }] true true).1 =
        CL_INVALID_GL_SHAREGROUP_REFERENCE_KHR) :=
  claim4_bind_all_classify { glFlag := true, d3d10Flag := true }
    [{ id := 1 }, { id := 2, bindExternalDeviceOk := false }, { id := 3 }] true true
    (by decide) ⟨{ id := 2, bindExternalDeviceOk := false }, by decide, by decide⟩

/-- Claim C5: for every property list containing only recognized tags
with valid values, checkProperties returns success and sets the consumed
size to the number of (tag, value) pairs processed times the size of one
pair plus the size of the one-word zero terminator. -/
theorem claim5_valid_props_size (w : Bool) (a : Nat) (props : List (Int × Nat))
    (hgood : ∀ p ∈ props, checkPropertyOk w a p.1 p.2 = true) :
    ∃ i2, checkProperties w a props = Except.ok i2 ∧
      i2.propertiesSize = props.length * sizeofElement + sizeofIntptr := by
  rcases checkPropertiesAux_ok w a props hgood initInfo 0 with ⟨i2, hrun, hsize⟩
  exact ⟨i2, hrun, by simpa using hsize⟩

/-- Witness for claim C5: a three-pair list of recognized tags with
valid values consumes 3 pairs plus the terminator. -/
theorem claim5_witness :
    ∃ i2, checkProperties false 5
      [(CL_CONTEXT_INTEROP_USER_SYNC, 1), (CL_CONTEXT_PLATFORM, 0),
       (CL_CONTEXT_OFFLINE_DEVICES_AMD, 1)] = Except.ok i2 ∧
      i2.propertiesSize = 3 * sizeofElement + sizeofIntptr :=
  claim5_valid_props_size false 5
    [(CL_CONTEXT_INTEROP_USER_SYNC, 1), (CL_CONTEXT_PLATFORM, 0),
     (CL_CONTEXT_OFFLINE_DEVICES_AMD, 1)] (by decide)

/-- Counterexample to claim C6 as stated: on the Windows build a D3D10
device-handle tag with a null value fails with CL_INVALID_VALUE, the
very code returned for an unrecognized tag, so the two situations are
not distinguishable by error code. -/
theorem claim6_counterexample :
    checkProperties true 1 [(CL_CONTEXT_D3D10_DEVICE_KHR, 0)] =
      Except.error CL_INVALID_VALUE ∧
    checkProperties true 1 [(0x9999, 0)] = Except.error CL_INVALID_VALUE := by
  exact ⟨rfl, rfl⟩

/-- Claim C6 (amended): a GL-class external-device-handle tag (EGL
display, WGL HDC on Windows, GLX display on Linux, GL context) with a
null value fails with CL_INVALID_GL_SHAREGROUP_REFERENCE_KHR, which is
distinguishable from the CL_INVALID_VALUE returned for an unrecognized
tag; the D3D-class handle tags with a null value fail with
CL_INVALID_VALUE, the same code as for an unrecognized tag. -/
theorem claim6_null_handle_errors (a : Nat) :
    (∀ w : Bool, checkProperties w a [(CL_EGL_DISPLAY_KHR, 0)] =
      Except.error CL_INVALID_GL_SHAREGROUP_REFERENCE_KHR) ∧
    (∀ w : Bool, checkProperties w a [(CL_GL_CONTEXT_KHR, 0)] =
      Except.error CL_INVALID_GL_SHAREGROUP_REFERENCE_KHR) ∧
    checkProperties true a [(CL_WGL_HDC_KHR, 0)] =
      Except.error CL_INVALID_GL_SHAREGROUP_REFERENCE_KHR ∧
    checkProperties false a [(CL_GLX_DISPLAY_KHR, 0)] =
      Except.error CL_INVALID_GL_SHAREGROUP_REFERENCE_KHR ∧
    checkProperties true a [(CL_CONTEXT_D3D10_DEVICE_KHR, 0)] =
      Except.error CL_INVALID_VALUE ∧
    checkProperties true a [(CL_CONTEXT_D3D11_DEVICE_KHR, 0)] =
      Except.error CL_INVALID_VALUE ∧
    checkProperties true a [(CL_CONTEXT_ADAPTER_D3D9_KHR, 0)] =
      Except.error CL_INVALID_VALUE ∧
    checkProperties true a [(CL_CONTEXT_ADAPTER_D3D9EX_KHR, 0)] =
      Except.error CL_INVALID_VALUE ∧
    checkProperties true a [(CL_CONTEXT_ADAPTER_DXVA_KHR, 0)] =
      Except.error CL_INVALID_VALUE ∧
    (∀ w : Bool, checkProperties w a [(0x9999, 0)] = Except.error CL_INVALID_VALUE) ∧
    CL_INVALID_GL_SHAREGROUP_REFERENCE_KHR ≠ CL_INVALID_VALUE := by
  refine ⟨fun w => ?_, fun w => ?_, rfl, rfl, rfl, rfl, rfl, rfl, rfl, fun w => ?_,
    by decide⟩ <;> cases w <;> rfl

/-- Claim C7 (amended): isDevQueuePossible returns false exactly when
the active queue count of the device is at least its advertised maximum
number of on-device queues; since addDeviceQueue performs no capacity
check, reachable states can push the count strictly past the maximum. -/
theorem claim7_false_iff_at_max (r : Registry) (d : Device) :
    isDevQueuePossible r d = false ↔
      d.maxOnDeviceQueues ≤ (r d.id).deviceQueueCnt := by
  unfold isDevQueuePossible
  split_ifs with h
  · simp only [false_iff]
    omega
  · simp only [true_iff]
    omega

/-- Counterexample to claim C7 as stated: registering two queues on a
device with maximum 1 is reachable (addDeviceQueue never checks the
capacity), and there isDevQueuePossible returns false while the count,
2, differs from the maximum, 1. -/
theorem claim7_counterexample :
    Reachable overRegistry ∧
    isDevQueuePossible overRegistry qdev = false ∧
    (overRegistry qdev.id).deviceQueueCnt ≠ qdev.maxOnDeviceQueues :=
  ⟨Reachable.add _ _ _ _ (Reachable.add _ _ _ _ Reachable.empty), by decide, by decide⟩

/-- Claim C8: calling removeDeviceQueue for a device whose active queue
count is zero is a fatal contract violation: the assertion fires (the
aborting outcome, modelled as none), not a silent no-op. -/
theorem claim8_remove_on_zero_aborts (r : Registry) (d : Device) (queue : Nat)
    (h : (r d.id).deviceQueueCnt = 0) :
    removeDeviceQueue r d queue = none := by
  unfold removeDeviceQueue
  rw [if_pos h]

/-- Witness for claim C8: removing a queue from the empty registry
aborts. -/
theorem claim8_witness : removeDeviceQueue emptyRegistry qdev 3 = none :=
  claim8_remove_on_zero_aborts emptyRegistry qdev 3 rfl

/-- Claim C10: a CL_EGL_DISPLAY_KHR property falls through into the GL
context handling: a null value fails with
CL_INVALID_GL_SHAREGROUP_REFERENCE_KHR, and a non-null value sets both
the EGL and GL device flags and stores the value as the GL device handle
while leaving the GL context handle unchanged. -/
theorem claim10_egl_fallthrough (w : Bool) (a : Nat) (i : Info) (v : Nat) :
    checkProperty w a i CL_EGL_DISPLAY_KHR 0 =
      Except.error CL_INVALID_GL_SHAREGROUP_REFERENCE_KHR ∧
    (v ≠ 0 → checkProperty w a i CL_EGL_DISPLAY_KHR v =
      Except.ok { i with eglFlag := true, glFlag := true, hDevGL := v }) := by
  constructor
  · unfold checkProperty
    norm_num [CL_CONTEXT_INTEROP_USER_SYNC, CL_CONTEXT_D3D10_DEVICE_KHR,
      CL_CONTEXT_D3D11_DEVICE_KHR, CL_CONTEXT_ADAPTER_D3D9_KHR,
      CL_CONTEXT_ADAPTER_D3D9EX_KHR, CL_CONTEXT_ADAPTER_DXVA_KHR,
      CL_EGL_DISPLAY_KHR, CL_GL_CONTEXT_KHR]
  · intro hv
    unfold checkProperty
    norm_num [CL_CONTEXT_INTEROP_USER_SYNC, CL_CONTEXT_D3D10_DEVICE_KHR,
      CL_CONTEXT_D3D11_DEVICE_KHR, CL_CONTEXT_ADAPTER_D3D9_KHR,
      CL_CONTEXT_ADAPTER_D3D9EX_KHR, CL_CONTEXT_ADAPTER_DXVA_KHR,
      CL_EGL_DISPLAY_KHR, CL_GL_CONTEXT_KHR, hv]

/-- Witness for claim C10: processing an EGL display property with the
null value 0 fails with the GL sharegroup error, and with value 5 sets
the EGL and GL flags and the GL device handle. -/
theorem claim10_witness :
    checkProperty false 1 initInfo CL_EGL_DISPLAY_KHR 0 =
      Except.error CL_INVALID_GL_SHAREGROUP_REFERENCE_KHR ∧
    checkProperty false 1 initInfo CL_EGL_DISPLAY_KHR 5 =
      Except.ok { initInfo with eglFlag := true, glFlag := true, hDevGL := 5 } :=
  ⟨(claim10_egl_fallthrough false 1 initInfo 5).1,
   (claim10_egl_fallthrough false 1 initInfo 5).2 (by decide)⟩

end AmdCtx
